import Mathlib

/-
Verification development for the Bitrix task bot.

Shallow embedding of the intake pipeline of `src/bot_handlers.py` and the
Bitrix client of `src/bitrix.py`:
  - pure helpers (`_attachment_too_large`, `_is_retryable_upload_error`,
    `_saved_file_label`, `build_task_description`, ...) become Lean functions;
  - the remote collaborators (Bitrix Disk upload, task creation) become
    outcome oracles: functions from a request (or a file index and an attempt
    index) to `Except Exc Int`, standing for "the awaited call returned a
    value" or "the awaited call raised this exception";
  - the handlers (`on_attachment`, `cb_confirm_create`, `cb_start_task`)
    become functions from their inputs and the session data to an explicit
    outcome record listing the new session data, the collaborator calls made,
    the filesystem writes performed and the conversation state returned.

Concurrency note: `_upload_files_to_bitrix_disk` runs the per-file coroutines
under an `asyncio.Semaphore` and collects them with `asyncio.gather`, which
returns the per-file results in argument (input) order regardless of
completion order; the semaphore bounds in-flight calls but does not change
any per-file result.  The embedding therefore models the per-file results as
a list in input order, and the concurrency ceiling does not appear.
-/

namespace BitrixBot

/-! ## String helpers

Python's `marker in details` substring test and `str.lower`, embedded over
`List Char` so that every definition evaluates inside the kernel. -/

/-- `charsStart n h` is true when the char list `n` is an initial segment of `h`. -/
def charsStart : List Char → List Char → Bool
  | [], _ => true
  | _ :: _, [] => false
  | a :: as, b :: bs => a == b && charsStart as bs

/-- `charsHas n h` is true when `n` occurs contiguously somewhere in `h`
(Python's `n in h` on strings). -/
def charsHas (needle : List Char) : List Char → Bool
  | [] => charsStart needle []
  | c :: t => charsStart needle (c :: t) || charsHas needle t

/-- Python `needle in haystack` for strings. -/
def strHas (haystack needle : String) : Bool :=
  charsHas needle.data haystack.data

/-- Python `str.lower()` (agrees with it on the ASCII text involved here). -/
def pyLower (s : String) : String :=
  String.mk (s.data.map Char.toLower)

/-- Drop leading whitespace characters. -/
def dropWhileWs : List Char → List Char
  | [] => []
  | c :: t => if c.isWhitespace then dropWhileWs t else c :: t

/-- Python `str.strip()`: remove leading and trailing whitespace (agrees with
it on the ASCII whitespace involved here). -/
def pyStrip (s : String) : String :=
  String.mk ((dropWhileWs (dropWhileWs s.data).reverse).reverse)

/-! ## Exceptions

`src/bot_handlers.py` distinguishes three exception shapes in
`_is_retryable_upload_error`: `httpx.TransportError`, `BitrixError`
(dataclass with `message` and `details`, `src/bitrix.py` lines 9-12), and
everything else. -/

/-- An exception as classified by `_is_retryable_upload_error`:
`transport` is any `httpx.TransportError`, `bitrix message details` is
`BitrixError(message, details)`, and `other` is any other exception
(its argument is its text, unused by the classifier). -/
inductive Exc where
  | transport : Exc
  | bitrix : String → String → Exc
  | other : String → Exc
deriving DecidableEq

/-! ## Error classifier (`_is_retryable_upload_error`, bot_handlers.py 147-169) -/

/-- The transient-failure marker vocabulary (`markers`, bot_handlers.py 152-167). -/
def RETRY_MARKERS : List String :=
  ["timeout",
   "readtimeout",
   "connecttimeout",
   "remoteprotocolerror",
   "all disk upload strategies failed",
   "temporar",
   "service unavailable",
   "gateway timeout",
   "too many request",
   "internal",
   "network",
   "502",
   "503",
   "504"]

/-- `_is_retryable_upload_error` (bot_handlers.py 147-169): transport errors
are retryable; a `BitrixError` is retryable when the lowercased
`f"{message} {details}"` contains one of the markers; everything else is
terminal. -/
def is_retryable_upload_error : Exc → Bool
  | Exc.transport => true
  | Exc.bitrix message details =>
      RETRY_MARKERS.any (fun m => strHas (pyLower (message ++ " " ++ details)) m)
  | Exc.other _ => false

/-! ## Bitrix Disk upload response handling (`BitrixClient.upload_to_folder`,
bitrix.py 34-50) -/

/-- The observable shape of the HTTP response that `upload_to_folder`
handles: whether `r.json()` succeeded, the HTTP status code and raw text,
the `("error", "error_description")` pair when the payload has a top-level
`"error"` key, the parse of `int(payload["result"]["ID"])` when it succeeds,
and `str(payload)`, the Python rendering of the parsed payload. -/
structure HttpResp where
  jsonOk : Bool
  statusCode : Nat
  text : String
  errorField : Option (String × String)
  resultID : Option Int
  payloadText : String
deriving DecidableEq

/-- The `BitrixError` raised at bitrix.py line 50 when the disk file id
cannot be parsed: its message is fixed and its details are `str(payload)`. -/
def parse_mismatch_error (payloadText : String) : Exc :=
  Exc.bitrix "Cannot parse disk file id from Bitrix response" payloadText

/-- `BitrixClient.upload_to_folder` response handling (bitrix.py 40-50):
non-JSON body raises, a payload with an `"error"` key raises the structured
error, a payload whose `["result"]["ID"]` parses returns that id, and any
other payload raises `parse_mismatch_error` carrying `str(payload)`. -/
def upload_to_folder (r : HttpResp) : Except Exc Int :=
  if r.jsonOk = false then
    Except.error (Exc.bitrix
      ("Bitrix returned non-JSON response (HTTP " ++ toString r.statusCode ++ ")") r.text)
  else
    match r.errorField with
    | some ed => Except.error (Exc.bitrix ed.1 ed.2)
    | none =>
        match r.resultID with
        | some i => Except.ok i
        | none => Except.error (parse_mismatch_error r.payloadText)

/-! ## Staged files -/

/-- `storage.SavedFile` as used by `src/bot_handlers.py` (constructed with
`original_name` and `local_path`); the spec's StagedFile (§3). `storage.py`
is not among the provided sources; the two fields are the ones the handlers
read and write. -/
structure SavedFile where
  original_name : String
  local_path : String
deriving DecidableEq

/-- Python `os.path.basename`: the part after the last `/`. -/
def basename (p : String) : String :=
  ((p.split (fun c => c == '/')).getLast?).getD ""

/-- `_saved_file_label` (bot_handlers.py 140-144): the stripped original
name when non-empty, else the basename of the local path, else `"file"`. -/
def saved_file_label (f : SavedFile) : String :=
  let name := pyStrip f.original_name
  if name ≠ "" then name
  else if basename f.local_path ≠ "" then basename f.local_path
  else "file"

/-! ## Upload orchestrator (`_upload_files_to_bitrix_disk`, bot_handlers.py 624-682)

The Disk collaborator is an outcome oracle `outcome : Nat → Except Exc Int`
per file (attempt index ↦ result of that attempt's awaited call). -/

/-- The attempt loop of `_upload_one` (bot_handlers.py 639-670), iterating
over the remaining attempt indices of `range(1, max_attempts + 1)`.  Returns
the pair the coroutine returns — `(some id, none)` on success, `(none, some
label)` on failure — together with the list of attempt indices actually
tried.  The empty-list case is line 670, reached only when the range is
empty.  A failed attempt is followed by another one exactly when
`attempt < max_attempts` and the classifier marks the failure retryable. -/
def upload_one_loop (outcome : Nat → Except Exc Int) (max_attempts : Nat)
    (label : String) : List Nat → (Option Int × Option String) × List Nat
  | [] => ((none, some label), [])
  | attempt :: rest =>
      match outcome attempt with
      | Except.ok fid => ((some fid, none), [attempt])
      | Except.error exc =>
          if attempt < max_attempts ∧ is_retryable_upload_error exc = true then
            let r := upload_one_loop outcome max_attempts label rest
            (r.1, attempt :: r.2)
          else ((none, some label), [attempt])

/-- `_upload_one` for one file with the given display label:
run the attempt loop over `range(1, max_attempts + 1)`. -/
def upload_one (outcome : Nat → Except Exc Int) (max_attempts : Nat)
    (label : String) : (Option Int × Option String) × List Nat :=
  upload_one_loop outcome max_attempts label (List.range' 1 max_attempts)

/-- The per-file results of `asyncio.gather` (bot_handlers.py 672) in input
order: file at position `i` (starting at `start`) gets oracle `outcome i`. -/
def upload_files_go (outcome : Nat → Nat → Except Exc Int) (max_attempts : Nat) :
    Nat → List SavedFile → List (Option Int × Option String)
  | _, [] => []
  | i, f :: rest =>
      (upload_one (outcome i) max_attempts (saved_file_label f)).1
        :: upload_files_go outcome max_attempts (i + 1) rest

/-- The aggregation test of bot_handlers.py line 679: `if failed:` keeps a
failure marker only when it is present and truthy (a non-empty string). -/
def failSel (r : Option Int × Option String) : Option String :=
  match r.2 with
  | some s => if s = "" then none else some s
  | none => none

/-- `_upload_files_to_bitrix_disk` (bot_handlers.py 624-682): empty input
short-circuits to `([], [])` with no collaborator call; otherwise the
per-file results are aggregated in input order — ids of the successes into
`uploaded`, truthy failure labels into `failed`. -/
def upload_files_to_bitrix_disk (outcome : Nat → Nat → Except Exc Int)
    (files : List SavedFile) (max_attempts : Nat) : List Int × List String :=
  if files = [] then ([], [])
  else
    let results := upload_files_go outcome max_attempts 0 files
    (results.filterMap (fun r => r.1), results.filterMap failSel)

/-! ## Task creation (`BitrixClient.create_task`, bitrix.py 53-89, and the
confirm-time submission with fallback, bot_handlers.py 745-780) -/

/-- One `tasks.task.add` request as assembled at the two call sites in
`cb_confirm_create` (bot_handlers.py 746-754 and 758-766). -/
structure CreateReq where
  title : String
  description : String
  responsible_id : Int
  group_id : Option Int
  priority : Option Int
  created_by : Option Int
  webdav_file_ids : List Int
deriving DecidableEq

/-- The form-field list `create_task` posts (bitrix.py 63-74): title,
description and responsible always; group, priority and creator only when
present — a `none` creator means the `fields[CREATED_BY]` key is omitted. -/
def create_task_fields (title description : String) (responsible_id : Int)
    (group_id priority created_by : Option Int) : List (String × String) :=
  let fields := [("fields[TITLE]", title),
                 ("fields[DESCRIPTION]", description),
                 ("fields[RESPONSIBLE_ID]", toString responsible_id)]
  let fields := match group_id with
    | some g => fields ++ [("fields[GROUP_ID]", toString g)]
    | none => fields
  let fields := match priority with
    | some p => fields ++ [("fields[PRIORITY]", toString p)]
    | none => fields
  match created_by with
  | some c => fields ++ [("fields[CREATED_BY]", toString c)]
  | none => fields

/-- The create-task section of `cb_confirm_create` (bot_handlers.py 745-780)
over a ticketing oracle `create`.  The first call uses the full request; a
`BitrixError` on it (and only a `BitrixError` — the first `except` arm)
triggers exactly one fallback call with `created_by` dropped; any exception
of the fallback, or a non-`BitrixError` exception of the first call, is
terminal.  Returns the task id (when one call succeeded) and the list of
requests issued, in order. -/
def submit_task (create : CreateReq → Except Exc Int) (req : CreateReq) :
    Option Int × List CreateReq :=
  match create req with
  | Except.ok tid => (some tid, [req])
  | Except.error e =>
      match e with
      | Exc.bitrix _ _ =>
          let req2 := { req with created_by := none }
          match create req2 with
          | Except.ok tid2 => (some tid2, [req, req2])
          | Except.error _ => (none, [req, req2])
      | _ => (none, [req])

/-! ## Session data and configuration -/

/-- The per-user conversation data the task conversation reads and writes
(`context.user_data` keys `ticket_id`, `title`, `description`, `files`). -/
structure UserData where
  ticket_id : Option String
  title : Option String
  description : Option String
  files : List SavedFile
deriving DecidableEq

/-- The configuration values `cb_confirm_create` and `on_attachment` read.
`config.Settings` is not among the provided sources; the fields are the ones
the handlers access (spec §6 configuration surface). -/
structure Settings where
  upload_dir : String
  bitrix_default_responsible_id : Int
  bitrix_group_id : Option Int
  bitrix_priority : Option Int
  bitrix_disk_folder_id : Int
  bitrix_upload_max_attempts : Nat
deriving DecidableEq

/-! ## Conversation states (bot_handlers.py 42; `ConversationHandler.END` is -1) -/

def WAIT_TITLE : Int := 0
def WAIT_DESCRIPTION : Int := 1
def WAIT_ATTACHMENTS : Int := 2
def CONFIRM : Int := 3
def CONV_END : Int := -1

/-! ## Limits (bot_handlers.py 48-49) -/

def MAX_ATTACHMENTS_PER_TASK : Nat := 10
def MAX_ATTACHMENT_BYTES : Nat := 20 * 1024 * 1024

/-- `_attachment_too_large` (bot_handlers.py 117-120): a missing (`None`) or
zero reported size is falsy and never too large; otherwise the size is too
large exactly when it exceeds `MAX_ATTACHMENT_BYTES`. -/
def attachment_too_large (size_bytes : Option Nat) : Bool :=
  match size_bytes with
  | none => false
  | some n => if n = 0 then false else decide (n > MAX_ATTACHMENT_BYTES)

/-! ## Attachment collector (`on_attachment`, bot_handlers.py 541-596) -/

/-- One incoming message as `on_attachment` inspects it: a photo (largest
size entry, with its `file_unique_id` and reported `file_size`), a document
(optional `file_name`, `file_unique_id`, reported `file_size`), or anything
else (neither photo nor document). -/
inductive Blob where
  | photo : String → Option Nat → Blob
  | document : Option String → String → Option Nat → Blob
  | otherKind : Blob
deriving DecidableEq

/-- The reported byte size of a blob (`file_size`, possibly absent). -/
def blobReportedSize : Blob → Option Nat
  | Blob.photo _ sz => sz
  | Blob.document _ _ sz => sz
  | Blob.otherKind => none

/-- Modelled from the spec: `storage.build_upload_dir` is not among the
provided sources.  Spec §6 gives the staging layout
`root / date / user_identity / ticket_id`; modelled as pure path
concatenation with no side effect of its own. -/
def build_upload_dir (root date : String) (tg_user_id : Int) (ticket : String) : String :=
  root ++ "/" ++ date ++ "/" ++ toString tg_user_id ++ "/" ++ ticket

/-- Modelled from the spec: `storage.make_local_path` is not among the
provided sources; it joins the upload directory and the sanitized file name
(spec §6 staging layout, last component). -/
def make_local_path (dir name : String) : String :=
  dir ++ "/" ++ name

/-- Everything observable about one `on_attachment` invocation: the session
file list afterwards, the local paths written (one `download_to_drive` per
accepted attachment; the handler performs no other filesystem write), the
conversation state returned, and which rejection branch (count limit /
size ceiling) was taken. -/
structure AttachOutcome where
  files : List SavedFile
  writes : List String
  next_state : Int
  rejected_limit : Bool
  rejected_size : Bool
deriving DecidableEq

/-- `on_attachment` (bot_handlers.py 541-596).  `sanitize` stands for
`utils.safe_filename` (not among the provided sources; left abstract — no
claim depends on its behaviour).  Order of checks as in the source: missing
ticket ends the conversation; a session already at the count limit re-prompts
with nothing appended and nothing written; an over-sized photo or document
re-prompts likewise; an accepted photo or document is downloaded to its
staging path and appended; any other message kind re-prompts. -/
def on_attachment (sanitize : String → String) (upload_root date : String)
    (tg_user_id : Int) (data : UserData) (blob : Blob) : AttachOutcome :=
  match data.ticket_id with
  | none =>
      { files := data.files, writes := [], next_state := CONV_END,
        rejected_limit := false, rejected_size := false }
  | some ticket =>
      let upload_dir := build_upload_dir upload_root date tg_user_id ticket
      let saved := data.files
      if saved.length ≥ MAX_ATTACHMENTS_PER_TASK then
        { files := saved, writes := [], next_state := WAIT_ATTACHMENTS,
          rejected_limit := true, rejected_size := false }
      else
        match blob with
        | Blob.photo uid sz =>
            if attachment_too_large sz then
              { files := saved, writes := [], next_state := WAIT_ATTACHMENTS,
                rejected_limit := false, rejected_size := true }
            else
              let filename := "photo_" ++ uid ++ ".jpg"
              let local_path := make_local_path upload_dir filename
              { files := saved ++ [⟨filename, local_path⟩], writes := [local_path],
                next_state := WAIT_ATTACHMENTS,
                rejected_limit := false, rejected_size := false }
        | Blob.document name uid sz =>
            if attachment_too_large sz then
              { files := saved, writes := [], next_state := WAIT_ATTACHMENTS,
                rejected_limit := false, rejected_size := true }
            else
              let original := match name with
                | some n => if n = "" then "document_" ++ uid else n
                | none => "document_" ++ uid
              let filename := sanitize original
              let local_path := make_local_path upload_dir filename
              { files := saved ++ [⟨original, local_path⟩], writes := [local_path],
                next_state := WAIT_ATTACHMENTS,
                rejected_limit := false, rejected_size := false }
        | Blob.otherKind =>
            { files := saved, writes := [], next_state := WAIT_ATTACHMENTS,
              rejected_limit := false, rejected_size := false }

/-! ## Description assembly (bot_handlers.py 182-200) -/

/-- `build_task_description` (bot_handlers.py 182-187). -/
def build_task_description (user_desc initiator_block attachments_block : String) : String :=
  let parts := [pyStrip user_desc, "", pyStrip initiator_block]
  let ab := pyStrip attachments_block
  let parts := if ab ≠ "" then parts ++ ["", ab] else parts
  pyStrip (String.intercalate "\n" parts)

/-- `build_attachments_block` (bot_handlers.py 198-200): always empty — local
file paths are internal and kept out of the Bitrix task description. -/
def build_attachments_block (files : List SavedFile) (upload_root : String) : String :=
  ""

/-! ## Start and confirm handlers -/

/-- `cb_start_task` (bot_handlers.py 503-511): clears the user data, stores a
fresh ticket id and an empty file list, and returns `WAIT_TITLE`.  It takes
the linked Bitrix id as an argument only to record that it never consults
it — no linkage check occurs on this entry path. -/
def cb_start_task (linked : Option Int) (new_ticket : String) : UserData × Int :=
  ({ ticket_id := some new_ticket, title := none, description := none, files := [] },
   WAIT_TITLE)

/-- Everything observable about one `cb_confirm_create` invocation: whether
the upload orchestrator ran, its two result lists, the create-task requests
issued in order, the reported task id, whether the session data was cleared,
whether an explicit failure message was sent, and the conversation state
returned. -/
structure ConfirmOutcome where
  upload_invoked : Bool
  uploaded : List Int
  failed : List String
  create_calls : List CreateReq
  task_id : Option Int
  cleared : Bool
  failure_notice : Bool
  next_state : Int
deriving DecidableEq

/-- `cb_confirm_create` (bot_handlers.py 685-794).  `initiator` stands for
`build_initiator_blockderived` text from the update; `diskOutcome` and
`create` are the Disk and ticketing oracles.  Control flow as in the source:
empty (stripped) title or description → failure message, clear, END, no
collaborator call; no linked Bitrix id → failure message, clear, END, no
collaborator call; staged files present → run the orchestrator, and when
every upload failed → failure message, clear, END, no create call;
otherwise submit with the single defined fallback and report. -/
def cb_confirm_create (settings : Settings) (initiator : String)
    (linked : Option Int) (data : UserData)
    (diskOutcome : Nat → Nat → Except Exc Int)
    (create : CreateReq → Except Exc Int) : ConfirmOutcome :=
  let title := pyStrip (data.title.getD "")
  let user_desc := pyStrip (data.description.getD "")
  let files := data.files
  if title = "" ∨ user_desc = "" then
    { upload_invoked := false, uploaded := [], failed := [], create_calls := [],
      task_id := none, cleared := true, failure_notice := true, next_state := CONV_END }
  else
    let full_desc := build_task_description user_desc initiator
      (build_attachments_block files settings.upload_dir)
    match linked with
    | none =>
        { upload_invoked := false, uploaded := [], failed := [], create_calls := [],
          task_id := none, cleared := true, failure_notice := true, next_state := CONV_END }
    | some created_by =>
        let up : List Int × List String :=
          if files = [] then ([], [])
          else upload_files_to_bitrix_disk diskOutcome files settings.bitrix_upload_max_attempts
        if files ≠ [] ∧ up.2 ≠ [] ∧ up.1 = [] then
          { upload_invoked := true, uploaded := up.1, failed := up.2, create_calls := [],
            task_id := none, cleared := true, failure_notice := true, next_state := CONV_END }
        else
          let req : CreateReq :=
            { title := title, description := full_desc,
              responsible_id := settings.bitrix_default_responsible_id,
              group_id := settings.bitrix_group_id,
              priority := settings.bitrix_priority,
              created_by := some created_by,
              webdav_file_ids := up.1 }
          let sub := submit_task create req
          { upload_invoked := decide (files ≠ []), uploaded := up.1, failed := up.2,
            create_calls := sub.2, task_id := sub.1, cleared := true,
            failure_notice := sub.1.isNone, next_state := CONV_END }

/-! ## Concrete instances used by the witness theorems -/

def c6Files : List SavedFile :=
  [⟨"f1", "p1"⟩, ⟨"f2", "p2"⟩, ⟨"f3", "p3"⟩, ⟨"f4", "p4"⟩, ⟨"f5", "p5"⟩,
   ⟨"f6", "p6"⟩, ⟨"f7", "p7"⟩, ⟨"f8", "p8"⟩, ⟨"f9", "p9"⟩, ⟨"f10", "p10"⟩]

def c6Data : UserData :=
  { ticket_id := some "T1", title := some "t", description := some "d", files := c6Files }

def c7Data : UserData :=
  { ticket_id := some "T2", title := some "t", description := some "d", files := [] }

def demoSettings : Settings :=
  { upload_dir := "/var/uploads", bitrix_default_responsible_id := 2,
    bitrix_group_id := none, bitrix_priority := none,
    bitrix_disk_folder_id := 3, bitrix_upload_max_attempts := 1 }

def c5Data : UserData :=
  { ticket_id := some "T3", title := some "Title", description := some "Desc",
    files := [⟨"a.txt", "/x/a.txt"⟩] }

def c5Disk : Nat → Nat → Except Exc Int := fun _ _ => Except.error (Exc.other "boom")

def c5Create : CreateReq → Except Exc Int := fun _ => Except.ok 9

def c8Data : UserData :=
  { ticket_id := some "T4", title := some "   ", description := some "Desc", files := [] }

def c9Data : UserData :=
  { ticket_id := some "T5", title := some "Title", description := some "Desc", files := [] }

def c3Outcome : Nat → Nat → Except Exc Int := fun _ _ => Except.error Exc.transport

def c3Files : List SavedFile := [⟨"a.txt", "/x/a.txt"⟩, ⟨"b.txt", "/x/b.txt"⟩]

def c2CleanResp : HttpResp :=
  { jsonOk := true, statusCode := 200, text := "",
    errorField := none, resultID := none,
    payloadText := "\x7b'result': \x7b'FileID': '7'\x7d\x7d" }

def c2BadResp : HttpResp :=
  { jsonOk := true, statusCode := 200, text := "",
    errorField := none, resultID := none,
    payloadText := "\x7b'result': \x7b'error': 'Internal Server Error'\x7d\x7d" }

def c1Req : CreateReq :=
  { title := "T", description := "D", responsible_id := 1, group_id := none,
    priority := none, created_by := some 5, webdav_file_ids := [] }

def c1Create : CreateReq → Except Exc Int := fun r =>
  match r.created_by with
  | some _ => Except.error (Exc.bitrix "ACCESS_DENIED" "You do not have access to this group")
  | none => Except.ok 77

/-! # Helper lemmas -/

/-- A staged file's display label is never the empty string: the handler
falls back from the stripped original name to the basename to `"file"`. -/
theorem saved_file_label_ne_empty (f : SavedFile) : saved_file_label f ≠ "" := by
  simp only [saved_file_label]
  split
  · assumption
  · split
    · assumption
    · simp

/-- One unfolding step of the attempt loop on a non-empty attempt list. -/
theorem upload_one_loop_cons (outcome : Nat → Except Exc Int) (ma : Nat)
    (label : String) (a : Nat) (rest : List Nat) :
    upload_one_loop outcome ma label (a :: rest)
      = match outcome a with
        | Except.ok fid => ((some fid, none), [a])
        | Except.error exc =>
            if a < ma ∧ is_retryable_upload_error exc = true then
              ((upload_one_loop outcome ma label rest).1,
                a :: (upload_one_loop outcome ma label rest).2)
            else ((none, some label), [a]) := rfl

/-- Each per-file result of the attempt loop is either a success pair with
no failure marker, or a failure pair carrying exactly the display label. -/
theorem upload_one_loop_cases (outcome : Nat → Except Exc Int) (ma : Nat)
    (label : String) (l : List Nat) :
    (∃ fid, (upload_one_loop outcome ma label l).1 = (some fid, none)) ∨
    (upload_one_loop outcome ma label l).1 = (none, some label) := by
  induction l with
  | nil => right; rfl
  | cons a t ih =>
    rw [upload_one_loop_cons]
    split
    · exact Or.inl ⟨_, rfl⟩
    · split
      · exact ih
      · exact Or.inr rfl

/-- `upload_one` result dichotomy. -/
theorem upload_one_cases (outcome : Nat → Except Exc Int) (ma : Nat) (label : String) :
    (∃ fid, (upload_one outcome ma label).1 = (some fid, none)) ∨
    (upload_one outcome ma label).1 = (none, some label) :=
  upload_one_loop_cases outcome ma label (List.range' 1 ma)

/-- Every element of the gathered result list is a success pair or a failure
pair with a non-empty label. -/
theorem upload_files_go_elem (outcome : Nat → Nat → Except Exc Int) (ma : Nat) :
    ∀ (files : List SavedFile) (n : Nat) (r : Option Int × Option String),
      r ∈ upload_files_go outcome ma n files →
      (∃ fid, r = (some fid, none)) ∨ (∃ s, r = (none, some s) ∧ s ≠ "") := by
  intro files
  induction files with
  | nil => intro n r h; cases h
  | cons f t ih =>
    intro n r h
    rcases List.mem_cons.mp h with h1 | h2
    · rcases upload_one_cases (outcome n) ma (saved_file_label f) with ⟨fid, he⟩ | he
      · exact Or.inl ⟨fid, h1.trans he⟩
      · exact Or.inr ⟨saved_file_label f, h1.trans he, saved_file_label_ne_empty f⟩
    · exact ih (n + 1) r h2

/-- The gathered result list has one entry per input file. -/
theorem upload_files_go_length (outcome : Nat → Nat → Except Exc Int) (ma : Nat) :
    ∀ (files : List SavedFile) (n : Nat),
      (upload_files_go outcome ma n files).length = files.length := by
  intro files
  induction files with
  | nil => intro n; rfl
  | cons f t ih => intro n; simp [upload_files_go, ih (n + 1)]

/-- The `i`-th gathered result is the per-file result of the `i`-th file. -/
theorem upload_files_go_getElem? (outcome : Nat → Nat → Except Exc Int) (ma : Nat) :
    ∀ (files : List SavedFile) (n i : Nat),
      (upload_files_go outcome ma n files)[i]?
        = (files[i]?).map (fun f => (upload_one (outcome (n + i)) ma (saved_file_label f)).1) := by
  intro files
  induction files with
  | nil => intro n i; simp [upload_files_go]
  | cons f t ih =>
    intro n i
    cases i with
    | zero => simp [upload_files_go]
    | succ j =>
      have harith : n + (j + 1) = (n + 1) + j := by omega
      simp [upload_files_go, ih (n + 1) j, harith]

/-- Aggregation over result pairs that are each a success or a truthy
failure partitions: the id list and the failure list lengths sum to the
number of results. -/
theorem partition_length (results : List (Option Int × Option String))
    (h : ∀ r ∈ results,
      (∃ fid, r = (some fid, none)) ∨ (∃ s, r = (none, some s) ∧ s ≠ "")) :
    (results.filterMap (fun r => r.1)).length + (results.filterMap failSel).length
      = results.length := by
  induction results with
  | nil => rfl
  | cons r t ih =>
    have hr := h r (List.mem_cons_self r t)
    have ht := ih (fun x hx => h x (List.mem_cons_of_mem r hx))
    rcases hr with ⟨fid, rfl⟩ | ⟨s, rfl, hs⟩
    · simp only [List.filterMap_cons, failSel]
      simp only [List.length_cons]
      omega
    · simp only [List.filterMap_cons, failSel, if_neg hs]
      simp only [List.length_cons]
      omega

/-- On result pairs that are each a success or a truthy failure, the
truthiness filter of line 679 coincides with projecting the failure slot. -/
theorem failSel_eq_snd (results : List (Option Int × Option String))
    (h : ∀ r ∈ results,
      (∃ fid, r = (some fid, none)) ∨ (∃ s, r = (none, some s) ∧ s ≠ "")) :
    results.filterMap failSel = results.filterMap (fun r => r.2) := by
  induction results with
  | nil => rfl
  | cons r t ih =>
    have hr := h r (List.mem_cons_self r t)
    have ht := ih (fun x hx => h x (List.mem_cons_of_mem r hx))
    rcases hr with ⟨fid, rfl⟩ | ⟨s, rfl, hs⟩
    · simp only [List.filterMap_cons, failSel, ht]
    · simp only [List.filterMap_cons, failSel, if_neg hs, ht]

/-- When every attempt in the remaining range fails and is classified
retryable, the loop walks the whole range and ends in failure. -/
theorem upload_one_loop_all_fail (outcome : Nat → Except Exc Int) (ma : Nat)
    (label : String) :
    ∀ (n a : Nat), a + n = ma → 1 ≤ a →
      (∀ k, a ≤ k → k ≤ ma →
        ∃ e, outcome k = Except.error e ∧ is_retryable_upload_error e = true) →
      upload_one_loop outcome ma label (List.range' a (n + 1))
        = ((none, some label), List.range' a (n + 1)) := by
  intro n
  induction n with
  | zero =>
    intro a ha _ hf
    obtain ⟨e, he, _⟩ := hf a le_rfl (by omega)
    have hrange : List.range' a 1 = [a] := by simp
    rw [hrange, upload_one_loop_cons]
    simp only [he]
    rw [if_neg]
    rintro ⟨hlt, _⟩
    omega
  | succ n ih =>
    intro a ha h1 hf
    obtain ⟨e, he, hr⟩ := hf a le_rfl (by omega)
    have hrec := ih (a + 1) (by omega) (by omega) (fun k hk1 hk2 => hf k (by omega) hk2)
    rw [List.range'_succ, upload_one_loop_cons]
    simp only [he]
    rw [if_pos ⟨by omega, hr⟩, hrec]

/-- When every attempt index in `1..max_attempts` fails retryably, the file
is attempted at exactly those indices and ends in failure. -/
theorem upload_one_all_fail (outcome : Nat → Except Exc Int) (ma : Nat)
    (label : String) (hma : 1 ≤ ma)
    (hf : ∀ k, 1 ≤ k → k ≤ ma →
      ∃ e, outcome k = Except.error e ∧ is_retryable_upload_error e = true) :
    upload_one outcome ma label = ((none, some label), List.range' 1 ma) := by
  obtain ⟨n, rfl⟩ : ∃ n, ma = n + 1 := ⟨ma - 1, by omega⟩
  exact upload_one_loop_all_fail outcome (n + 1) label n 1 (by omega) le_rfl hf

/-- Under all-retryable failures, the gathered list is one failure pair per
file, carrying that file's label. -/
theorem upload_files_go_all_fail (outcome : Nat → Nat → Except Exc Int) (ma : Nat)
    (hma : 1 ≤ ma)
    (hf : ∀ i k, 1 ≤ k → k ≤ ma →
      ∃ e, outcome i k = Except.error e ∧ is_retryable_upload_error e = true) :
    ∀ (files : List SavedFile) (n : Nat),
      upload_files_go outcome ma n files
        = files.map (fun f => ((none : Option Int), some (saved_file_label f))) := by
  intro files
  induction files with
  | nil => intro n; rfl
  | cons f t ih =>
    intro n
    simp only [upload_files_go, List.map_cons]
    rw [upload_one_all_fail (outcome n) ma (saved_file_label f) hma (hf n), ih (n + 1)]

/-- Projecting ids out of an all-failure result list yields nothing. -/
theorem filterMap_fst_all_fail (files : List SavedFile) :
    (files.map (fun f => ((none : Option Int), some (saved_file_label f)))).filterMap
      (fun r => r.1) = [] := by
  induction files with
  | nil => rfl
  | cons f t ih => simp only [List.map_cons, List.filterMap_cons, ih]

/-- Projecting truthy failure labels out of an all-failure result list
yields every file's label, in input order. -/
theorem filterMap_failSel_all_fail (files : List SavedFile) :
    (files.map (fun f => ((none : Option Int), some (saved_file_label f)))).filterMap
      failSel = files.map saved_file_label := by
  induction files with
  | nil => rfl
  | cons f t ih =>
    simp only [List.map_cons, List.filterMap_cons, failSel,
      if_neg (saved_file_label_ne_empty f), ih]

/-! # Claim theorems -/

/-- C10: a missing (`None`) or zero reported byte size is classified as not
too large, and a blob is rejected for size exactly when its reported size is
strictly greater than `20 * 1024 * 1024` bytes. -/
theorem C10_size_check_truthiness :
    attachment_too_large none = false
    ∧ attachment_too_large (some 0) = false
    ∧ ∀ sz : Option Nat,
        attachment_too_large sz = true ↔ ∃ n, sz = some n ∧ 20 * 1024 * 1024 < n := by
  refine ⟨rfl, rfl, ?_⟩
  intro sz
  cases sz with
  | none => simp [attachment_too_large]
  | some n =>
    by_cases h : n = 0
    · subst h
      simp [attachment_too_large, MAX_ATTACHMENT_BYTES]
    · simp [attachment_too_large, h, MAX_ATTACHMENT_BYTES]

/-- C6: the staged-attachment count never exceeds 10 — an attachment event
on a session whose data is intact never pushes the file list past the limit,
and when the session already holds exactly 10 staged files the event is
rejected with a re-prompt (state stays `WAIT_ATTACHMENTS`), nothing is
appended, nothing is written, and the 10 staged files are unchanged. -/
theorem C6_attachment_count_cap (sanitize : String → String) (root date : String)
    (uid : Int) (t : String) (data : UserData) (blob : Blob)
    (hticket : data.ticket_id = some t)
    (hcount : data.files.length ≤ MAX_ATTACHMENTS_PER_TASK) :
    (on_attachment sanitize root date uid data blob).files.length ≤ MAX_ATTACHMENTS_PER_TASK
    ∧ (data.files.length = MAX_ATTACHMENTS_PER_TASK →
        on_attachment sanitize root date uid data blob
          = { files := data.files, writes := [], next_state := WAIT_ATTACHMENTS,
              rejected_limit := true, rejected_size := false }) := by
  constructor
  · by_cases hfull : data.files.length ≥ MAX_ATTACHMENTS_PER_TASK
    · simp only [on_attachment, hticket, if_pos hfull]
      exact hcount
    · have hlt : data.files.length < MAX_ATTACHMENTS_PER_TASK := Nat.lt_of_not_le hfull
      cases blob with
      | photo u sz =>
        simp only [on_attachment, hticket, if_neg hfull]
        by_cases hs : attachment_too_large sz = true
        · rw [if_pos hs]; exact hcount
        · rw [if_neg hs]
          simp only [List.length_append, List.length_cons, List.length_nil]
          omega
      | document nm u sz =>
        simp only [on_attachment, hticket, if_neg hfull]
        by_cases hs : attachment_too_large sz = true
        · rw [if_pos hs]; exact hcount
        · rw [if_neg hs]
          simp only [List.length_append, List.length_cons, List.length_nil]
          omega
      | otherKind =>
        simp only [on_attachment, hticket, if_neg hfull]
        exact hcount
  · intro h10
    simp only [on_attachment, hticket]
    rw [if_pos (Nat.le_of_eq h10.symm)]

/-- C6 witness: with 10 files already staged, an 11th photo is rejected and
the session is unchanged. -/
theorem C6_attachment_count_cap_witness :
    (on_attachment id "root" "2026-10-12" 1 c6Data (Blob.photo "u" (some 5))).files.length
        ≤ MAX_ATTACHMENTS_PER_TASK
    ∧ (c6Data.files.length = MAX_ATTACHMENTS_PER_TASK →
        on_attachment id "root" "2026-10-12" 1 c6Data (Blob.photo "u" (some 5))
          = { files := c6Data.files, writes := [], next_state := WAIT_ATTACHMENTS,
              rejected_limit := true, rejected_size := false }) :=
  C6_attachment_count_cap id "root" "2026-10-12" 1 "T1" c6Data
    (Blob.photo "u" (some 5)) rfl (by decide)

/-- C7: a blob whose reported size exceeds the 20 MiB ceiling is rejected at
the size check: the staged files are unchanged, no local file is written,
the state stays `WAIT_ATTACHMENTS`, and the size-rejection branch is the one
taken. -/
theorem C7_oversize_rejected (sanitize : String → String) (root date : String)
    (uid : Int) (t : String) (data : UserData) (blob : Blob) (n : Nat)
    (hticket : data.ticket_id = some t)
    (hroom : data.files.length < MAX_ATTACHMENTS_PER_TASK)
    (hsz : blobReportedSize blob = some n)
    (hbig : MAX_ATTACHMENT_BYTES < n) :
    on_attachment sanitize root date uid data blob
      = { files := data.files, writes := [], next_state := WAIT_ATTACHMENTS,
          rejected_limit := false, rejected_size := true } := by
  have hn : n ≠ 0 := by
    have h := hbig
    simp only [MAX_ATTACHMENT_BYTES] at h
    omega
  have htl : attachment_too_large (some n) = true := by
    simp only [attachment_too_large, if_neg hn, decide_eq_true_eq]
    exact hbig
  cases blob with
  | photo u sz =>
    simp only [blobReportedSize] at hsz
    subst hsz
    simp only [on_attachment, hticket, if_neg (Nat.not_le.mpr hroom)]
    rw [if_pos htl]
  | document nm u sz =>
    simp only [blobReportedSize] at hsz
    subst hsz
    simp only [on_attachment, hticket, if_neg (Nat.not_le.mpr hroom)]
    rw [if_pos htl]
  | otherKind =>
    simp only [blobReportedSize] at hsz
    exact absurd hsz (by simp)

/-- C7 witness: a 30 MB document on a session with room is rejected for size
with no write and no append. -/
theorem C7_oversize_rejected_witness :
    on_attachment id "root" "2026-10-12" 1 c7Data
        (Blob.document (some "big.bin") "u2" (some 31457280))
      = { files := c7Data.files, writes := [], next_state := WAIT_ATTACHMENTS,
          rejected_limit := false, rejected_size := true } :=
  C7_oversize_rejected id "root" "2026-10-12" 1 "T2" c7Data
    (Blob.document (some "big.bin") "u2" (some 31457280)) 31457280
    rfl (by decide) rfl (by decide)

/-- C8: a confirm event with an empty (after stripping) title or description
is rejected before any collaborator call — the upload orchestrator is not
invoked, no create-task request is issued, and the session is cleared with a
failure message; the check is performed inside the confirm handler itself,
independent of the earlier per-step validation. -/
theorem C8_confirm_revalidates (settings : Settings) (initiator : String)
    (linked : Option Int) (data : UserData)
    (diskOutcome : Nat → Nat → Except Exc Int) (create : CreateReq → Except Exc Int)
    (h : pyStrip (data.title.getD "") = "" ∨ pyStrip (data.description.getD "") = "") :
    cb_confirm_create settings initiator linked data diskOutcome create
      = { upload_invoked := false, uploaded := [], failed := [], create_calls := [],
          task_id := none, cleared := true, failure_notice := true,
          next_state := CONV_END } := by
  simp only [cb_confirm_create]
  rw [if_pos h]

/-- C8 witness: a session whose title strips to empty is rejected at confirm
with no collaborator call. -/
theorem C8_confirm_revalidates_witness :
    cb_confirm_create demoSettings "Initiator" (some 5) c8Data c5Disk c5Create
      = { upload_invoked := false, uploaded := [], failed := [], create_calls := [],
          task_id := none, cleared := true, failure_notice := true,
          next_state := CONV_END } :=
  C8_confirm_revalidates demoSettings "Initiator" (some 5) c8Data c5Disk c5Create
    (Or.inl (by decide))

/-- C9: a confirm event by a user with no linked Bitrix identity makes no
upload and no create-task call; the user is notified and the session is
cleared — while the button-driven start path (`cb_start_task`) imposes no
linkage requirement: it hands out `WAIT_TITLE` whatever the linkage is. -/
theorem C9_unlinked_confirm_blocked (settings : Settings) (initiator : String)
    (data : UserData) (diskOutcome : Nat → Nat → Except Exc Int)
    (create : CreateReq → Except Exc Int)
    (ht : pyStrip (data.title.getD "") ≠ "")
    (hd : pyStrip (data.description.getD "") ≠ "") :
    cb_confirm_create settings initiator none data diskOutcome create
      = { upload_invoked := false, uploaded := [], failed := [], create_calls := [],
          task_id := none, cleared := true, failure_notice := true,
          next_state := CONV_END }
    ∧ ∀ (linked : Option Int) (ticket : String),
        (cb_start_task linked ticket).2 = WAIT_TITLE := by
  constructor
  · simp only [cb_confirm_create]
    rw [if_neg (by rintro (h | h); exact ht h; exact hd h)]
  · intro _ _
    rfl

/-- C9 witness: an unlinked user's confirm on a complete draft is blocked
with no collaborator call, and the button start path still opens a session. -/
theorem C9_unlinked_confirm_blocked_witness :
    cb_confirm_create demoSettings "Initiator" none c9Data c5Disk c5Create
      = { upload_invoked := false, uploaded := [], failed := [], create_calls := [],
          task_id := none, cleared := true, failure_notice := true,
          next_state := CONV_END }
    ∧ ∀ (linked : Option Int) (ticket : String),
        (cb_start_task linked ticket).2 = WAIT_TITLE :=
  C9_unlinked_confirm_blocked demoSettings "Initiator" c9Data c5Disk c5Create
    (by decide) (by decide)

/-- C5: when the session has staged files and the orchestrator reports every
upload failed (no ids, non-empty failure list), the confirm handler issues no
create-task request, reports the failure, and clears the session. -/
theorem C5_all_uploads_fail_no_submit (settings : Settings) (initiator : String)
    (b : Int) (data : UserData) (diskOutcome : Nat → Nat → Except Exc Int)
    (create : CreateReq → Except Exc Int)
    (ht : pyStrip (data.title.getD "") ≠ "")
    (hd : pyStrip (data.description.getD "") ≠ "")
    (hfiles : data.files ≠ [])
    (hup : (upload_files_to_bitrix_disk diskOutcome data.files
              settings.bitrix_upload_max_attempts).1 = [])
    (hfail : (upload_files_to_bitrix_disk diskOutcome data.files
              settings.bitrix_upload_max_attempts).2 ≠ []) :
    cb_confirm_create settings initiator (some b) data diskOutcome create
      = { upload_invoked := true, uploaded := [],
          failed := (upload_files_to_bitrix_disk diskOutcome data.files
                      settings.bitrix_upload_max_attempts).2,
          create_calls := [], task_id := none, cleared := true,
          failure_notice := true, next_state := CONV_END } := by
  simp only [cb_confirm_create]
  rw [if_neg (by rintro (h | h); exact ht h; exact hd h)]
  rw [if_neg hfiles]
  rw [if_pos ⟨hfiles, hfail, hup⟩]
  rw [hup]

/-- C5 witness: one staged file whose single upload attempt fails terminally:
no create call, session cleared with a failure notice. -/
theorem C5_all_uploads_fail_no_submit_witness :
    cb_confirm_create demoSettings "Initiator" (some 7) c5Data c5Disk c5Create
      = { upload_invoked := true, uploaded := [],
          failed := (upload_files_to_bitrix_disk c5Disk c5Data.files
                      demoSettings.bitrix_upload_max_attempts).2,
          create_calls := [], task_id := none, cleared := true,
          failure_notice := true, next_state := CONV_END } :=
  C5_all_uploads_fail_no_submit demoSettings "Initiator" 7 c5Data c5Disk c5Create
    (by decide) (by decide) (by decide) (by decide) (by decide)

/-- C4: the orchestrator's result partitions the input — each file
contributes exactly one entry (success id or display name), the two output
lists are the order-preserving projections of the per-file outcome list (so
completion time plays no role), their lengths sum to the input length, and
the empty input yields empty outputs for every collaborator (no call is
made). -/
theorem C4_partition_in_order (outcome : Nat → Nat → Except Exc Int)
    (files : List SavedFile) (ma : Nat) :
    ((upload_files_to_bitrix_disk outcome files ma).1.length
      + (upload_files_to_bitrix_disk outcome files ma).2.length = files.length)
    ∧ (∀ oc : Nat → Nat → Except Exc Int,
        upload_files_to_bitrix_disk oc ([] : List SavedFile) ma = ([], []))
    ∧ ∃ perFile : List (Option Int × Option String),
        perFile.length = files.length
        ∧ (∀ (i : Nat) (f : SavedFile), files[i]? = some f →
            perFile[i]? = some ((upload_one (outcome i) ma (saved_file_label f)).1)
            ∧ ((∃ fid, (upload_one (outcome i) ma (saved_file_label f)).1
                  = (some fid, none))
              ∨ (upload_one (outcome i) ma (saved_file_label f)).1
                  = (none, some (saved_file_label f))))
        ∧ (upload_files_to_bitrix_disk outcome files ma).1
            = perFile.filterMap (fun r => r.1)
        ∧ (upload_files_to_bitrix_disk outcome files ma).2
            = perFile.filterMap (fun r => r.2) := by
  by_cases hnil : files = []
  · subst hnil
    refine ⟨rfl, fun oc => rfl, [], rfl, ?_, rfl, rfl⟩
    intro i f hf
    simp at hf
  · have hdich := upload_files_go_elem outcome ma files 0
    have hgoal1 : upload_files_to_bitrix_disk outcome files ma
        = ((upload_files_go outcome ma 0 files).filterMap (fun r => r.1),
           (upload_files_go outcome ma 0 files).filterMap failSel) := by
      simp only [upload_files_to_bitrix_disk, if_neg hnil]
    refine ⟨?_, fun oc => rfl,
      upload_files_go outcome ma 0 files, upload_files_go_length outcome ma files 0,
      ?_, ?_, ?_⟩
    · rw [hgoal1]
      have hlen := partition_length (upload_files_go outcome ma 0 files) hdich
      rw [upload_files_go_length] at hlen
      exact hlen
    · intro i f hf
      constructor
      · simp [upload_files_go_getElem? outcome ma files 0 i, hf]
      · exact upload_one_cases (outcome i) ma (saved_file_label f)
    · rw [hgoal1]
    · rw [hgoal1, failSel_eq_snd _ hdich]

/-- C3: when every attempt of every file fails with a failure the classifier
marks retryable, each file is attempted at exactly the indices
`1..max_attempts` (that is, exactly `max_attempts` times), and the
orchestrator returns no ids and every display name, in input order. -/
theorem C3_retryable_exhausts_attempts (outcome : Nat → Nat → Except Exc Int)
    (files : List SavedFile) (ma : Nat)
    (hne : files ≠ []) (hma : 1 ≤ ma)
    (hfail : ∀ i k, 1 ≤ k → k ≤ ma →
      ∃ e, outcome i k = Except.error e ∧ is_retryable_upload_error e = true) :
    upload_files_to_bitrix_disk outcome files ma = ([], files.map saved_file_label)
    ∧ (∀ (i : Nat) (label : String),
        (upload_one (outcome i) ma label).2 = List.range' 1 ma)
    ∧ (List.range' 1 ma).length = ma := by
  have hone : ∀ (i : Nat) (label : String),
      upload_one (outcome i) ma label = ((none, some label), List.range' 1 ma) :=
    fun i label => upload_one_all_fail (outcome i) ma label hma (hfail i)
  refine ⟨?_, fun i label => congrArg Prod.snd (hone i label), by simp⟩
  simp only [upload_files_to_bitrix_disk, if_neg hne]
  rw [upload_files_go_all_fail outcome ma hma hfail files 0,
      filterMap_fst_all_fail, filterMap_failSel_all_fail]

/-- C3 witness: two files, three attempts, every attempt a transport error:
each file is attempted at indices 1, 2, 3 and both names are reported
failed. -/
theorem C3_retryable_exhausts_attempts_witness :
    upload_files_to_bitrix_disk c3Outcome c3Files 3 = ([], c3Files.map saved_file_label)
    ∧ (∀ (i : Nat) (label : String),
        (upload_one (c3Outcome i) 3 label).2 = List.range' 1 3)
    ∧ (List.range' 1 3).length = 3 :=
  C3_retryable_exhausts_attempts c3Outcome c3Files 3 (by decide) (by decide)
    (fun i k _ _ => ⟨Exc.transport, rfl, rfl⟩)

/-- C2 (amended): the parse-mismatch failure of `upload_to_folder` raises the
fixed-message `BitrixError` whose details are the raw payload text, and the
classifier marks it terminal whenever the lowercased message-plus-payload
text contains none of the transient-failure markers.  (Without that proviso
the claim fails: the details carry the raw payload, so a payload containing
a marker substring is classified retryable — see the counterexample.) -/
theorem C2_parse_mismatch_terminal (r : HttpResp)
    (hjson : r.jsonOk = true) (herr : r.errorField = none) (hid : r.resultID = none)
    (hclean : ∀ m ∈ RETRY_MARKERS,
        strHas (pyLower ("Cannot parse disk file id from Bitrix response "
          ++ r.payloadText)) m = false) :
    upload_to_folder r = Except.error (parse_mismatch_error r.payloadText)
    ∧ is_retryable_upload_error (parse_mismatch_error r.payloadText) = false := by
  constructor
  · simp [upload_to_folder, hjson, herr, hid]
  · simp only [parse_mismatch_error, is_retryable_upload_error]
    rw [List.any_eq_false]
    intro m hm
    simp [hclean m hm]

/-- C2 witness: a shape-mismatched payload free of marker substrings raises
the parse-mismatch error and is classified terminal. -/
theorem C2_parse_mismatch_terminal_witness :
    upload_to_folder c2CleanResp = Except.error (parse_mismatch_error c2CleanResp.payloadText)
    ∧ is_retryable_upload_error (parse_mismatch_error c2CleanResp.payloadText) = false :=
  C2_parse_mismatch_terminal c2CleanResp rfl rfl rfl (by decide)

/-- C2 counterexample: a payload with no parsable disk file id whose raw
text happens to contain `"Internal Server Error"` raises the parse-mismatch
`BitrixError`, and `_is_retryable_upload_error` classifies it RETRYABLE
(the marker `"internal"` occurs in the lowercased details), refuting the
claim that every local parse/shape mismatch is classified terminal. -/
theorem C2_parse_mismatch_counterexample :
    upload_to_folder c2BadResp = Except.error (parse_mismatch_error c2BadResp.payloadText)
    ∧ is_retryable_upload_error (parse_mismatch_error c2BadResp.payloadText) = true := by
  constructor
  · rfl
  · decide

/-- No field list assembled with the creator omitted carries the
`fields[CREATED_BY]` key (bitrix.py 73-74). -/
theorem create_task_fields_no_creator (title description : String) (rid : Int)
    (g p : Option Int) :
    ∀ kv ∈ create_task_fields title description rid g p none,
      kv.1 ≠ "fields[CREATED_BY]" := by
  intro kv hkv
  simp only [create_task_fields] at hkv
  cases g with
  | none =>
    cases p with
    | none =>
      simp only [List.mem_cons, List.not_mem_nil, or_false] at hkv
      rcases hkv with rfl | rfl | rfl <;> simp
    | some p =>
      simp only [List.mem_append, List.mem_cons, List.not_mem_nil, or_false] at hkv
      rcases hkv with (rfl | rfl | rfl) | rfl <;> simp
  | some g =>
    cases p with
    | none =>
      simp only [List.mem_append, List.mem_cons, List.not_mem_nil, or_false] at hkv
      rcases hkv with (rfl | rfl | rfl) | rfl <;> simp
    | some p =>
      simp only [List.mem_append, List.mem_cons, List.not_mem_nil, or_false] at hkv
      rcases hkv with ((rfl | rfl | rfl) | rfl) | rfl <;> simp

/-- C1 (amended): after the first create-task call fails with a structured
`BitrixError` of ANY kind — not only a creator-specific rejection — exactly
one fallback call is made, with the creator field omitted (the fallback
request is the original with `created_by` dropped, and a creator-less
request posts no `fields[CREATED_BY]` key); the fallback's id is the
reported one when it succeeds; any failure of the fallback, or a
non-`BitrixError` failure of the first call, is terminal with no further
call. -/
theorem C1_fallback_policy (create : CreateReq → Except Exc Int) (req : CreateReq) :
    ((∃ tid, create req = Except.ok tid ∧ submit_task create req = (some tid, [req]))
      ∨ (∃ m d, create req = Except.error (Exc.bitrix m d)
          ∧ (submit_task create req).2 = [req, { req with created_by := none }]
          ∧ (submit_task create req).1
              = (match create { req with created_by := none } with
                 | Except.ok tid2 => some tid2
                 | Except.error _ => none))
      ∨ (∃ e, create req = Except.error e ∧ (∀ m d, e ≠ Exc.bitrix m d)
          ∧ submit_task create req = (none, [req])))
    ∧ (∀ kv ∈ create_task_fields req.title req.description req.responsible_id
          req.group_id req.priority none, kv.1 ≠ "fields[CREATED_BY]") := by
  refine ⟨?_, create_task_fields_no_creator req.title req.description
    req.responsible_id req.group_id req.priority⟩
  cases hc : create req with
  | ok tid =>
    left
    exact ⟨tid, rfl, by simp [submit_task, hc]⟩
  | error e =>
    cases e with
    | transport =>
      refine Or.inr (Or.inr ⟨Exc.transport, rfl, ?_, by simp [submit_task, hc]⟩)
      intro m d h
      cases h
    | bitrix m d =>
      refine Or.inr (Or.inl ⟨m, d, rfl, ?_, ?_⟩)
      · simp only [submit_task, hc]
        cases create { req with created_by := none } <;> rfl
      · simp only [submit_task, hc]
        cases create { req with created_by := none } <;> rfl
    | other s =>
      refine Or.inr (Or.inr ⟨Exc.other s, rfl, ?_, by simp [submit_task, hc]⟩)
      intro m d h
      cases h

/-- C1 counterexample: the first create-task call fails with a structured
rejection whose text never mentions the creator field (no `created_by`, no
`creator` substring), yet the handler still issues the fallback call with
the creator omitted — refuting the claim that the fallback is made only
when the collaborator rejects specifically because of the creator identity
field.  The fallback succeeds and its id (77) is the reported one. -/
theorem C1_fallback_counterexample :
    c1Create c1Req
      = Except.error (Exc.bitrix "ACCESS_DENIED" "You do not have access to this group")
    ∧ strHas (pyLower "ACCESS_DENIED You do not have access to this group") "created_by"
        = false
    ∧ strHas (pyLower "ACCESS_DENIED You do not have access to this group") "creator"
        = false
    ∧ submit_task c1Create c1Req = (some 77, [c1Req, { c1Req with created_by := none }]) := by
  refine ⟨rfl, by decide, by decide, by decide⟩

end BitrixBot
